/-
  Verification of the ezcellular client library (okaestne/ezcellular).

  This file gives a shallow embedding, in Lean 4, of the parts of the
  library that its specification talks about:

  * the modem lifecycle state machine and its precondition guards
    (`src/ezcellular/modem.cpp`: `assert_state`, `set_power_state`,
    `enabled` / `registered` / `connected`);
  * the generic attribute bag (`src/ezcellular/any_map.h`: `AnyMap`);
  * the telemetry decoder (`src/ezcellular/structs.h` and the helpers
    `dbus_location_to_Location` in `modem.cpp`), including the
    hex-string parsing done with `std::stoul` and the `sscanf`-based
    parsing of the combined 3GPP location string;
  * the device registry (`src/ezcellular/modem_manager.cpp`:
    `ModemManagerOMProxy`), with its device set and its
    single-outstanding-await discipline.

  C++ exceptions are modelled with `Except`; machine integers are
  modelled as `Nat`/`Int` with explicit reductions modulo `2 ^ w` where
  a narrowing cast occurs; `double` values are only ever copied
  verbatim by the code under study, so they are modelled as `Rat`.
-/
import Mathlib

namespace Ezcellular

/-! ## Enumerations (`src/ezcellular/enums.h`, `src/ezcellular/modem.h`) -/

/-- Radio technology (`enum class Technology`). -/
inductive Technology where
  | UNKNOWN
  | GSM
  | UMTS
  | LTE
  | NR5G
deriving DecidableEq, Repr

/-- Underlying value of `Technology` (bit flags in the source). -/
def Technology.val : Technology → Nat
  | .UNKNOWN => 0
  | .GSM => 1
  | .UMTS => 2
  | .LTE => 4
  | .NR5G => 8

/-- `Modem::ModemState` from `modem.h`, an `enum class` over `int8_t`
whose constants come from the `MM_MODEM_STATE_*` values. -/
inductive ModemState where
  | FAILED
  | UNKNOWN
  | INITIALIZING
  | LOCKED
  | DISABLED
  | DISABLING
  | ENABLING
  | ENABLED
  | SEARCHING
  | REGISTERED
  | DISCONNECTING
  | CONNECTING
  | CONNECTED
deriving DecidableEq, Repr, Fintype

/-- Underlying `int8_t` value of each `ModemState`, i.e. the
`MM_MODEM_STATE_*` constants.  Comparisons like `<` and `>=` on the
C++ `enum class` compare these values. -/
def ModemState.val : ModemState → Int
  | .FAILED => -1
  | .UNKNOWN => 0
  | .INITIALIZING => 1
  | .LOCKED => 2
  | .DISABLED => 3
  | .DISABLING => 4
  | .ENABLING => 5
  | .ENABLED => 6
  | .SEARCHING => 7
  | .REGISTERED => 8
  | .DISCONNECTING => 9
  | .CONNECTING => 10
  | .CONNECTED => 11

/-- `Modem::PowerState` (`enum class` over `uint32_t`,
`MM_MODEM_POWER_STATE_*` values). -/
inductive PowerState where
  | UNKNOWN
  | OFF
  | LOW
  | ON
deriving DecidableEq, Repr

/-- Underlying `uint32_t` value of each `PowerState`. -/
def PowerState.val : PowerState → Nat
  | .UNKNOWN => 0
  | .OFF => 1
  | .LOW => 2
  | .ON => 3

/-! ## State guards (`src/ezcellular/modem.cpp`) -/

/-- The data carried by the `ModemException` thrown by `assert_state`:
its message interpolates both the required and the current state. -/
structure StateError where
  required : ModemState
  current : ModemState
deriving DecidableEq, Repr

/-- `assert_state(modem, required_state, ...)`: throws a
`ModemException` naming the current and the required state whenever
`current_state < required_state` (comparison of the underlying
`int8_t` values); otherwise it returns normally. -/
def assert_state (current required : ModemState) : Except StateError Unit :=
  if current.val < required.val then
    Except.error ⟨required, current⟩
  else
    Except.ok ()

/-- A remote D-Bus call issued by a modem operation. -/
inductive RemoteCall where
  | setPowerState (arg : Nat)
deriving DecidableEq, Repr

/-- `Modem::set_power_state`: first `assert_state(*this, DISABLED, ...)`,
then `callMethod("SetPowerState")` with the `uint32_t` value of the
requested power state.  `st` is the modem state that `state()`
reports. -/
def set_power_state (st : ModemState) (p : PowerState) : Except StateError RemoteCall :=
  match assert_state st ModemState.DISABLED with
  | Except.error e => Except.error e
  | Except.ok _ => Except.ok (RemoteCall.setPowerState p.val)

/-- `Modem::power_off`. -/
def power_off (st : ModemState) : Except StateError RemoteCall :=
  set_power_state st PowerState.OFF

/-- `Modem::power_low`. -/
def power_low (st : ModemState) : Except StateError RemoteCall :=
  set_power_state st PowerState.LOW

/-- `Modem::power_on`. -/
def power_on (st : ModemState) : Except StateError RemoteCall :=
  set_power_state st PowerState.ON

/-- `Modem::enabled()`: `state() >= ModemState::ENABLED`. -/
def enabled (st : ModemState) : Bool :=
  decide (ModemState.ENABLED.val ≤ st.val)

/-- `Modem::registered()`: `state() >= ModemState::REGISTERED`. -/
def registered (st : ModemState) : Bool :=
  decide (ModemState.REGISTERED.val ≤ st.val)

/-- `Modem::connected()`: `state() == ModemState::CONNECTED`. -/
def connected (st : ModemState) : Bool :=
  decide (st.val = ModemState.CONNECTED.val)

/-- The guard performed first by `Modem::signal()`:
`assert_state(*this, REGISTERED, "access signal quality")`. -/
def signal_state_check (st : ModemState) : Except StateError Unit :=
  assert_state st ModemState.REGISTERED

/-- The guard performed first by `Modem::observe_signal()`. -/
def observe_signal_state_check (st : ModemState) : Except StateError Unit :=
  assert_state st ModemState.REGISTERED

/-- The guard performed first by `Modem::location()`. -/
def location_state_check (st : ModemState) : Except StateError Unit :=
  assert_state st ModemState.REGISTERED

/-- The guard performed first by `Modem::observe_location()`. -/
def observe_location_state_check (st : ModemState) : Except StateError Unit :=
  assert_state st ModemState.REGISTERED

/-- The guard performed first by `Modem::network_time()`:
`assert_state(*this, ENABLED, "get network time")`. -/
def network_time_state_check (st : ModemState) : Except StateError Unit :=
  assert_state st ModemState.ENABLED

/-! ## The attribute bag (`src/ezcellular/any_map.h`) -/

/-- The dynamically-typed values stored in an `AnyMap` (`std::any` in
the source).  The `std::any_cast<T>` type check compares the exact
stored C++ type, so each distinct stored type gets a constructor:
plain strings, booleans, doubles (modelled as `Rat`, the code only
copies them verbatim), `uint16_t` / `uint32_t`, the `Technology` tag,
and the `std::shared_ptr` handles to nested records that the cell-info
decoder stores (`shared_ptr<SignalLTE>`, `shared_ptr<SignalNR5G>`,
`shared_ptr<LocationLTE>`, `shared_ptr<LocationNR5G>`). -/
inductive AnyValue where
  | vString (s : String)
  | vBool (b : Bool)
  | vDouble (d : Rat)
  | vU16 (n : Nat)
  | vU32 (n : Nat)
  | vTech (t : Technology)
  | vSignalLTE (m : List (String × AnyValue))
  | vSignalNR5G (m : List (String × AnyValue))
  | vLocationLTE (m : List (String × AnyValue))
  | vLocationNR5G (m : List (String × AnyValue))

/-- `AnyMap` is a `std::map<std::string, std::any>`: an association
list kept sorted by key (the iteration order of `std::map`), with
unique keys. -/
abbrev AnyMap := List (String × AnyValue)

/-- `std::map::find` / `at`: look a key up. -/
def mapFind (k : String) : AnyMap → Option AnyValue
  | [] => none
  | (k', v) :: rest => if k = k' then some v else mapFind k rest

/-- Lexicographic byte-wise comparison of strings:
`std::less<std::string>`, the ordering of `std::map` keys. -/
def listLtB : List Char → List Char → Bool
  | [], [] => false
  | [], _ :: _ => true
  | _ :: _, [] => false
  | a :: as, b :: bs =>
    if a.toNat < b.toNat then true
    else if b.toNat < a.toNat then false
    else listLtB as bs

/-- `std::less<std::string>` on whole strings. -/
def strLtB (a b : String) : Bool :=
  listLtB a.data b.data

/-- `std::map::insert`: place the pair at its sorted position; if the
key is already present the map is left unchanged (`insert` does not
overwrite). -/
def mapInsert (k : String) (v : AnyValue) : AnyMap → AnyMap
  | [] => [(k, v)]
  | (k', v') :: rest =>
    if strLtB k k' then (k, v) :: (k', v') :: rest
    else if k = k' then (k', v') :: rest
    else (k', v') :: mapInsert k v rest

/-- `at(k) = v`: overwrite the value stored for a key that is present
(the only use, `LocationNR5G`'s constructor, assigns the `"tech"` key
inserted by the base-class constructor; on a missing key `at` would
throw, which cannot happen there). -/
def mapAssign (k : String) (v : AnyValue) : AnyMap → AnyMap
  | [] => []
  | (k', v') :: rest =>
    if k = k' then (k', v) :: rest else (k', v') :: mapAssign k v rest

/-- `AnyMap::keys()`: the source constructs
`std::vector<std::string> keys(size())` — a vector of `size()` empty
strings — and then `push_back`s every stored key while iterating the
map. -/
def keys (m : AnyMap) : List String :=
  m.foldl (fun acc kv => acc ++ [kv.1]) (List.replicate m.length "")

/-- `AnyMap::has_key()`: `find(key) != end()`. -/
def has_key (m : AnyMap) (k : String) : Bool :=
  (mapFind k m).isSome

/-- The run-time type tag that `std::any_cast<T>` checks. -/
inductive AnyTag where
  | tString
  | tBool
  | tDouble
  | tU16
  | tU32
  | tTech
  | tSignalLTE
  | tSignalNR5G
  | tLocationLTE
  | tLocationNR5G
deriving DecidableEq, Repr

/-- The stored type of an `AnyValue`. -/
def tagOf : AnyValue → AnyTag
  | .vString _ => .tString
  | .vBool _ => .tBool
  | .vDouble _ => .tDouble
  | .vU16 _ => .tU16
  | .vU32 _ => .tU32
  | .vTech _ => .tTech
  | .vSignalLTE _ => .tSignalLTE
  | .vSignalNR5G _ => .tSignalNR5G
  | .vLocationLTE _ => .tLocationLTE
  | .vLocationNR5G _ => .tLocationNR5G

/-- The two ways `AnyMap::get<T>` can throw: `at(key)` throws
`std::out_of_range` when the key is absent (the "missing key" error),
and `std::any_cast<T>` throws `std::bad_any_cast` when the stored type
differs from `T`. -/
inductive GetError where
  | missingKey
  | typeMismatch
deriving DecidableEq, Repr

/-- `AnyMap::get<T>(key)`, with `T` given by its type tag:
`auto val = at(key); return std::any_cast<T>(val);`. -/
def get (m : AnyMap) (tag : AnyTag) (k : String) : Except GetError AnyValue :=
  match mapFind k m with
  | none => Except.error GetError.missingKey
  | some v => if tagOf v = tag then Except.ok v else Except.error GetError.typeMismatch

/-- `AnyMap::get_or_default<T>(key, default_)`: the same lookup and
cast inside `try { ... } catch (...) { return default_; }`. -/
def get_or_default (m : AnyMap) (tag : AnyTag) (k : String) (d : AnyValue) : AnyValue :=
  match get m tag k with
  | Except.ok v => v
  | Except.error _ => d

/-- `get<double>` as used by the typed accessors (e.g. `rsrp()`). -/
def getDouble (m : AnyMap) (k : String) : Except GetError Rat :=
  match get m AnyTag.tDouble k with
  | Except.ok (AnyValue.vDouble d) => Except.ok d
  | Except.ok _ => Except.error GetError.typeMismatch
  | Except.error e => Except.error e

/-! ## D-Bus variant maps and the errors of the decoders -/

/-- A value inside an `sdbus::Variant` as far as the decoders consume
them: strings, booleans, doubles, or `uint32_t`. -/
inductive VarVal where
  | vStr (s : String)
  | vBool (b : Bool)
  | vDbl (d : Rat)
  | vU32 (n : Nat)
deriving DecidableEq, Repr

/-- `sdbus_variant_map` (`std::map<std::string, sdbus::Variant>`). -/
abbrev VariantMap := List (String × VarVal)

/-- `std::map::find` on a variant map. -/
def vmFind (k : String) : VariantMap → Option VarVal
  | [] => none
  | (k', v) :: rest => if k = k' then some v else vmFind k rest

/-- The exceptions `std::stoul` can throw: `std::invalid_argument`
when no conversion can be performed, `std::out_of_range` when the
converted value would not fit an `unsigned long`. -/
inductive ParseErr where
  | invalidArgument
  | outOfRange
deriving DecidableEq, Repr

/-- The exceptions that can escape a decoder: a `std::stoul` parse
error, a failed `sdbus::Variant::get<T>` cast, or the
`std::out_of_range` of `substr` with an out-of-bounds position. -/
inductive DErr where
  | parse (e : ParseErr)
  | variantCast
  | substrPos
deriving DecidableEq, Repr

/-- `sdbus::Variant::get<std::string>()`. -/
def VarVal.asString : VarVal → Except DErr String
  | .vStr s => Except.ok s
  | _ => Except.error DErr.variantCast

/-- `sdbus::Variant::get<double>()`. -/
def VarVal.asDouble : VarVal → Except DErr Rat
  | .vDbl d => Except.ok d
  | _ => Except.error DErr.variantCast

/-- `sdbus::Variant::get<bool>()`. -/
def VarVal.asBool : VarVal → Except DErr Bool
  | .vBool b => Except.ok b
  | _ => Except.error DErr.variantCast

/-- `sdbus::Variant::get<uint32_t>()`. -/
def VarVal.asU32 : VarVal → Except DErr Nat
  | .vU32 n => Except.ok n
  | _ => Except.error DErr.variantCast

/-! ## Base-16 parsing (`std::stoul(s, nullptr, 16)` / `sscanf` `%X`) -/

/-- The whitespace characters `isspace` recognises in the C locale. -/
def isSpaceC (c : Char) : Bool :=
  c = ' ' ∨ c = '\t' ∨ c = '\n' ∨ c = '\x0b' ∨ c = '\x0c' ∨ c = '\r'

/-- Value of a hexadecimal digit, if the character is one. -/
def hexDigit? (c : Char) : Option Nat :=
  if '0' ≤ c ∧ c ≤ '9' then some (c.toNat - '0'.toNat)
  else if 'a' ≤ c ∧ c ≤ 'f' then some (c.toNat - 'a'.toNat + 10)
  else if 'A' ≤ c ∧ c ≤ 'F' then some (c.toNat - 'A'.toNat + 10)
  else none

/-- Accumulate a maximal run of hexadecimal digits. -/
def scanHexDigits : List Char → Nat → Nat × List Char
  | [], acc => (acc, [])
  | c :: cs, acc =>
    match hexDigit? c with
    | some d => scanHexDigits cs (acc * 16 + d)
    | none => (acc, c :: cs)

/-- The `strtoul(_, _, 16)` subject sequence: optional whitespace, an
optional sign, an optional `0x`/`0X` prefix (consumed only when a hex
digit follows it), then a maximal run of hex digits.  Returns the sign,
the unreduced magnitude and the rest of the input, or `none` when no
digits could be consumed (no conversion performed). -/
def strtoul16 (cs : List Char) : Option (Bool × Nat × List Char) :=
  let cs1 := cs.dropWhile isSpaceC
  let (neg, cs2) :=
    match cs1 with
    | '-' :: r => (true, r)
    | '+' :: r => (false, r)
    | _ => (false, cs1)
  let cs3 :=
    match cs2 with
    | '0' :: x :: r =>
      if (x == 'x' || x == 'X') && (match r with | c :: _ => (hexDigit? c).isSome | [] => false)
      then r else cs2
    | _ => cs2
  match cs3 with
  | c :: _ =>
    if (hexDigit? c).isSome then
      let (v, rest) := scanHexDigits cs3 0
      some (neg, v, rest)
    else none
  | [] => none

/-- `std::stoul(s, nullptr, 16)` on a 64-bit `unsigned long`: throws
`std::invalid_argument` when no conversion is performed and
`std::out_of_range` when the magnitude exceeds `ULONG_MAX`; a leading
minus sign negates the value in unsigned (mod `2 ^ 64`) arithmetic. -/
def stoul16 (s : String) : Except ParseErr Nat :=
  match strtoul16 s.data with
  | none => Except.error ParseErr.invalidArgument
  | some (neg, v, _) =>
    if 2 ^ 64 - 1 < v then Except.error ParseErr.outOfRange
    else Except.ok (if neg then (2 ^ 64 - v % 2 ^ 64) % 2 ^ 64 else v)

/-! ## Telemetry record decoding (`src/ezcellular/structs.h`) -/

/-- `maybe_insert_from_variant_map<double>`. -/
def maybe_insert_double (m : AnyMap) (dbus_map : VariantMap) (k : String) :
    Except DErr AnyMap :=
  match vmFind k dbus_map with
  | none => Except.ok m
  | some v => do
    let d ← v.asDouble
    pure (mapInsert k (AnyValue.vDouble d) m)

/-- `maybe_insert_from_variant_map_as<double>`. -/
def maybe_insert_as_double (m : AnyMap) (dbus_map : VariantMap)
    (from_key as_key : String) : Except DErr AnyMap :=
  match vmFind from_key dbus_map with
  | none => Except.ok m
  | some v => do
    let d ← v.asDouble
    pure (mapInsert as_key (AnyValue.vDouble d) m)

/-- `maybe_insert_from_variant_map<bool>`. -/
def maybe_insert_bool (m : AnyMap) (dbus_map : VariantMap) (k : String) :
    Except DErr AnyMap :=
  match vmFind k dbus_map with
  | none => Except.ok m
  | some v => do
    let b ← v.asBool
    pure (mapInsert k (AnyValue.vBool b) m)

/-- `maybe_insert_from_variant_map<uint32_t>`. -/
def maybe_insert_u32 (m : AnyMap) (dbus_map : VariantMap) (k : String) :
    Except DErr AnyMap :=
  match vmFind k dbus_map with
  | none => Except.ok m
  | some v => do
    let n ← v.asU32
    pure (mapInsert k (AnyValue.vU32 n) m)

/-- `LocationBase::plmn_to_mcc_mnc`: `mcc = plmn.substr(0, 3)` (fine
even on a shorter string) and `mnc = plmn.substr(3, npos)` (throws
`std::out_of_range` when the string is shorter than 3 characters). -/
def plmn_to_mcc_mnc (plmn : String) : Except DErr (String × String) :=
  if plmn.length < 3 then Except.error DErr.substrPos
  else Except.ok (plmn.take 3, plmn.drop 3)

/-- The bag built by the `SignalBase(tech)` constructor:
`insert({"tech", tech})` on an empty map. -/
def SignalBase.ctor (tech : Technology) : AnyMap :=
  mapInsert "tech" (AnyValue.vTech tech) []

/-- `LocationBase::fill_from_variant_map`: split `"operator-id"` into
MCC/MNC when present, and parse `"ci"` with `stoul(_, _, 16)` (cast to
`uint32_t`) when present.  Exceptions propagate. -/
def LocationBase.fill_from_variant_map (self : AnyMap) (dbus_map : VariantMap) :
    Except DErr AnyMap := do
  let self1 ←
    match vmFind "operator-id" dbus_map with
    | none => pure self
    | some v => do
      let s ← v.asString
      let mm ← plmn_to_mcc_mnc s
      pure (mapInsert "mnc" (AnyValue.vString mm.2)
        (mapInsert "mcc" (AnyValue.vString mm.1) self))
  match vmFind "ci" dbus_map with
  | none => pure self1
  | some v => do
    let ci_hex ← v.asString
    let ci ← (stoul16 ci_hex).mapError DErr.parse
    pure (mapInsert "ci" (AnyValue.vU32 (ci % 2 ^ 32)) self1)

/-- `LocationLTE::fill_from_variant_map`: the base fill, then `"tac"`
parsed from hex into a `uint32_t` when present. -/
def LocationLTE.fill_from_variant_map (self : AnyMap) (dbus_map : VariantMap) :
    Except DErr AnyMap := do
  let self1 ← LocationBase.fill_from_variant_map self dbus_map
  match vmFind "tac" dbus_map with
  | none => pure self1
  | some v => do
    let tac_hex ← v.asString
    let tac ← (stoul16 tac_hex).mapError DErr.parse
    pure (mapInsert "tac" (AnyValue.vU32 (tac % 2 ^ 32)) self1)

/-- The bag built by the `LocationLTE()` constructor. -/
def LocationLTE.ctor : AnyMap :=
  mapInsert "tech" (AnyValue.vTech Technology.LTE) []

/-- The bag built by the `LocationNR5G()` constructor: the `LocationLTE`
constructor runs first, then `at("tech") = Technology::NR5G`
overwrites the tag. -/
def LocationNR5G.ctor : AnyMap :=
  mapAssign "tech" (AnyValue.vTech Technology.NR5G) LocationLTE.ctor

/-- `LocationLTE::from_variant_map`. -/
def LocationLTE.from_variant_map (dbus_map : VariantMap) : Except DErr AnyMap :=
  LocationLTE.fill_from_variant_map LocationLTE.ctor dbus_map

/-- `LocationNR5G::from_variant_map` ("uses LTE impl"). -/
def LocationNR5G.from_variant_map (dbus_map : VariantMap) : Except DErr AnyMap :=
  LocationLTE.fill_from_variant_map LocationNR5G.ctor dbus_map

/-- `SignalLTE::from_variant_map`: doubles `rsrp`, `rsrq`, `rssi`, and
`snr` stored as `sinr`. -/
def SignalLTE.from_variant_map (dbus_map : VariantMap) : Except DErr AnyMap := do
  let m ← maybe_insert_double (SignalBase.ctor Technology.LTE) dbus_map "rsrp"
  let m ← maybe_insert_double m dbus_map "rsrq"
  let m ← maybe_insert_double m dbus_map "rssi"
  maybe_insert_as_double m dbus_map "snr" "sinr"

/-- `SignalNR5G::from_variant_map`: doubles `rsrp`, `rsrq`, and `snr`
stored as `sinr`. -/
def SignalNR5G.from_variant_map (dbus_map : VariantMap) : Except DErr AnyMap := do
  let m ← maybe_insert_double (SignalBase.ctor Technology.NR5G) dbus_map "rsrp"
  let m ← maybe_insert_double m dbus_map "rsrq"
  maybe_insert_as_double m dbus_map "snr" "sinr"

/-- `SignalLTE::rsrp()`: `get<double>("rsrp")`. -/
def SignalLTE.rsrp (m : AnyMap) : Except GetError Rat :=
  getDouble m "rsrp"

/-- `SignalLTE::rsrq()`: `get<double>("rsrq")`. -/
def SignalLTE.rsrq (m : AnyMap) : Except GetError Rat :=
  getDouble m "rsrq"

/-- `CellInfoBase::fill_from_variant_map`: `maybe_insert` the boolean
`"serving"`, then parse `"ci"` from hex into a `uint32_t` when
present. -/
def CellInfoBase.fill_from_variant_map (self : AnyMap) (dbus_map : VariantMap) :
    Except DErr AnyMap := do
  let m ← maybe_insert_bool self dbus_map "serving"
  match vmFind "ci" dbus_map with
  | none => pure m
  | some v => do
    let ci_hex ← v.asString
    let ci ← (stoul16 ci_hex).mapError DErr.parse
    pure (mapInsert "ci" (AnyValue.vU32 (ci % 2 ^ 32)) m)

/-- `CellInfoLTE::from_variant_map`: base fill, `earfcn` as `uint32_t`,
`physical-ci` parsed from hex into a `uint16_t` stored as `"pci"`,
then a freshly decoded `SignalLTE` and `LocationLTE` from the same raw
map stored as `"signal"` and `"location"`. -/
def CellInfoLTE.from_variant_map (dbus_map : VariantMap) : Except DErr AnyMap := do
  let m ← CellInfoBase.fill_from_variant_map
    (mapInsert "tech" (AnyValue.vTech Technology.LTE) []) dbus_map
  let m ← maybe_insert_u32 m dbus_map "earfcn"
  let m ←
    match vmFind "physical-ci" dbus_map with
    | none => pure m
    | some v => do
      let pci_hex ← v.asString
      let pci ← (stoul16 pci_hex).mapError DErr.parse
      pure (mapInsert "pci" (AnyValue.vU16 (pci % 2 ^ 16)) m)
  let sig ← SignalLTE.from_variant_map dbus_map
  let m := mapInsert "signal" (AnyValue.vSignalLTE sig) m
  let loc ← LocationLTE.from_variant_map dbus_map
  pure (mapInsert "location" (AnyValue.vLocationLTE loc) m)

/-- `CellInfoNR5G::from_variant_map`: base fill, `nrarfcn`,
`physical-ci` as `uint16_t`, then nested `SignalNR5G` and
`LocationNR5G` records. -/
def CellInfoNR5G.from_variant_map (dbus_map : VariantMap) : Except DErr AnyMap := do
  let m ← CellInfoBase.fill_from_variant_map
    (mapInsert "tech" (AnyValue.vTech Technology.NR5G) []) dbus_map
  let m ← maybe_insert_u32 m dbus_map "nrarfcn"
  let m ←
    match vmFind "physical-ci" dbus_map with
    | none => pure m
    | some v => do
      let pci_hex ← v.asString
      let pci ← (stoul16 pci_hex).mapError DErr.parse
      pure (mapInsert "pci" (AnyValue.vU16 (pci % 2 ^ 16)) m)
  let sig ← SignalNR5G.from_variant_map dbus_map
  let m := mapInsert "signal" (AnyValue.vSignalNR5G sig) m
  let loc ← LocationNR5G.from_variant_map dbus_map
  pure (mapInsert "location" (AnyValue.vLocationNR5G loc) m)

/-! ## The combined 3GPP location string (`dbus_location_to_Location`) -/

/-- `MM_MODEM_LOCATION_SOURCE_3GPP_LAC_CI` (`1 << 0`). -/
def MM_MODEM_LOCATION_SOURCE_3GPP_LAC_CI : Nat := 1

/-- `std::map<uint32_t, sdbus::Variant>::find`. -/
def dictFind (k : Nat) : List (Nat × VarVal) → Option VarVal
  | [] => none
  | (k', v) :: rest => if k = k' then some v else dictFind k rest

/-- Scan up to `max` characters from the scanset `[0-9]`
(`sscanf`'s `%3[0-9]`; no leading-whitespace skip). -/
def scanDigits : Nat → List Char → List Char × List Char
  | 0, cs => ([], cs)
  | _ + 1, [] => ([], [])
  | n + 1, c :: cs =>
    if '0' ≤ c ∧ c ≤ '9' then
      let (ds, rest) := scanDigits n cs
      (c :: ds, rest)
    else ([], c :: cs)

/-- One `%X` input item of `sscanf`: leading whitespace is skipped,
then a `strtoul`-style base-16 subject sequence is converted and the
result stored into an `unsigned int` (mod `2 ^ 32`).  `none` when the
item fails to match. -/
def scanHexItem (cs : List Char) : Option (Nat × List Char) :=
  match strtoul16 cs with
  | none => none
  | some (neg, v, rest) =>
    some ((if neg then (2 ^ 64 - v % 2 ^ 64) % 2 ^ 64 else v) % 2 ^ 32, rest)

/-- The `sscanf(loc_data, "%3[0-9],%3[0-9],%*X,%X,%X", mcc, mnc, &ci,
&tac)` call: MCC as 1–3 digits, a literal comma, MNC as 1–3 digits, a
comma, a suppressed (scanned but ignored) hex field, a comma, CI as
hex, a comma, TAC as hex.  The source only uses whether the returned
assignment count equals 4, so the model returns the four assigned
fields when all of them match, `none` otherwise. -/
def scan_lac_ci (s : String) : Option (String × String × Nat × Nat) :=
  let cs := s.data
  let (mccDs, cs) := scanDigits 3 cs
  if mccDs.isEmpty then none else
  match cs with
  | ',' :: cs =>
    let (mncDs, cs) := scanDigits 3 cs
    if mncDs.isEmpty then none else
    match cs with
    | ',' :: cs =>
      match scanHexItem cs with
      | none => none
      | some (_, cs) =>
        match cs with
        | ',' :: cs =>
          match scanHexItem cs with
          | none => none
          | some (ci, cs) =>
            match cs with
            | ',' :: cs =>
              match scanHexItem cs with
              | none => none
              | some (tac, _) => some (⟨mccDs⟩, ⟨mncDs⟩, ci, tac)
            | _ => none
        | _ => none
    | _ => none
  | _ => none

/-- Which concrete `Location` subclass a returned `shared_ptr` holds. -/
inductive LocClass where
  | lte
  | nr5g
deriving DecidableEq, Repr

/-- A non-null `Location` result: the concrete class of the pointee
and its attribute bag. -/
structure LocRecord where
  cls : LocClass
  attrs : AnyMap

/-- `dbus_location_to_Location` from `modem.cpp`: look up the
`3GPP_LAC_CI` entry of the location dict (absent → null `Location`),
read its string, dispatch on the modem's current technology exactly as
the source's `if` / `else if (rat != NR5G)` / `else` chain does, parse
the combined location string with `sscanf`, and on a full 4-field
match insert `mcc`, `mnc`, `ci` and `tac` into the new record. -/
def dbus_location_to_Location (rat : Technology) (location_dict : List (Nat × VarVal)) :
    Except DErr (Option LocRecord) :=
  match dictFind MM_MODEM_LOCATION_SOURCE_3GPP_LAC_CI location_dict with
  | none => Except.ok none
  | some var =>
    match var.asString with
    | Except.error e => Except.error e
    | Except.ok loc_data =>
      let init : Option (LocClass × AnyMap) :=
        if rat = Technology.LTE then some (LocClass.lte, LocationLTE.ctor)
        else if rat ≠ Technology.NR5G then some (LocClass.nr5g, LocationNR5G.ctor)
        else none
      match init with
      | none => Except.ok none
      | some (cls, base) =>
        match scan_lac_ci loc_data with
        | none => Except.ok none
        | some (mcc, mnc, ci, tac) =>
          Except.ok (some ⟨cls,
            mapInsert "tac" (AnyValue.vU32 tac)
              (mapInsert "ci" (AnyValue.vU32 ci)
                (mapInsert "mnc" (AnyValue.vString mnc)
                  (mapInsert "mcc" (AnyValue.vString mcc) base)))⟩)

/-! ## The device registry (`src/ezcellular/modem_manager.cpp`) -/

/-- A `Modem` as the registry sees it: its D-Bus object path (the
remote object identity) and the IMEI the device reports. -/
structure ModemRef where
  path : String
  imei : String
deriving DecidableEq, Repr

/-- The `(void) std::remove_if(modems_.begin(), modems_.end(), ...)`
call in `onInterfacesRemoved`, whose return value is discarded and
which is not followed by an `erase`: the retained elements are shifted
to the front of the vector, the vector's size is unchanged, and the
positions past the retained prefix hold valid-but-unspecified leftover
values, represented here by the arbitrary `leftover` parameter. -/
def remove_if_no_erase (p : ModemRef → Bool) (leftover : ModemRef)
    (ms : List ModemRef) : List ModemRef :=
  let kept := ms.filter (fun m => ! p m)
  kept ++ List.replicate (ms.length - kept.length) leftover

/-- `ModemManagerOMProxy::onInterfacesRemoved`: match by
`dbus_proxy_->getObjectPath() == objectPath`. -/
def onInterfacesRemoved (objectPath : String) (leftover : ModemRef)
    (modems : List ModemRef) : List ModemRef :=
  remove_if_no_erase (fun m => m.path == objectPath) leftover modems

/-- An identifier for a `std::promise` / `std::future` pair created by
`await_modem`. -/
abbrev PromiseId := Nat

/-- How a promise was resolved: `set_value` with a modem, or
`set_exception` with the "Cancelled, awaiting other modem now."
`ModemManagerException`. -/
inductive PromiseResult where
  | resolved (m : ModemRef)
  | cancelledAwaitingOther
deriving DecidableEq, Repr

/-- The state of a `ModemManagerOMProxy`: the `modems_` vector, the
`awaited_modem_` optional (awaited IMEI and the pending promise), a
counter to mint fresh promise identifiers, and the log of promise
resolutions (most recent first). -/
structure OMProxyState where
  modems : List ModemRef
  awaited_modem : Option (String × PromiseId)
  nextPromise : PromiseId
  resolutions : List (PromiseId × PromiseResult)
deriving DecidableEq, Repr

/-- `ANY_IMEI` from `modem_manager.h`. -/
def ANY_IMEI : String := "<ANY_IMEI>"

/-- `ModemManagerOMProxy::await_modem`: if an await is pending, its
promise is resolved with the cancellation exception; then the pending
slot is replaced by the new target and a fresh promise, whose future
is returned. -/
def await_modem (st : OMProxyState) (imei : String) : OMProxyState × PromiseId :=
  let resolutions :=
    match st.awaited_modem with
    | some (_, pid) => (pid, PromiseResult.cancelledAwaitingOther) :: st.resolutions
    | none => st.resolutions
  (⟨st.modems, some (imei, st.nextPromise), st.nextPromise + 1, resolutions⟩,
    st.nextPromise)

/-- `ModemManagerOMProxy::onInterfacesAdded`: construct the new
`Modem`; if an await is pending and its target is `ANY_IMEI` or equals
the new modem's IMEI, fulfill the pending promise with the new modem
and clear the slot; in every case `push_back` the new modem. -/
def onInterfacesAdded (st : OMProxyState) (new_modem : ModemRef) : OMProxyState :=
  match st.awaited_modem with
  | some (awaited_imei, pid) =>
    if awaited_imei == ANY_IMEI || awaited_imei == new_modem.imei then
      { st with
        awaited_modem := none
        resolutions := (pid, PromiseResult.resolved new_modem) :: st.resolutions
        modems := st.modems ++ [new_modem] }
    else
      { st with modems := st.modems ++ [new_modem] }
  | none => { st with modems := st.modems ++ [new_modem] }

/-- `ModemManager::modems_available()`: returns
`mm_proxy_->getModems().empty()` directly. -/
def modems_available (st : OMProxyState) : Bool :=
  st.modems.isEmpty

end Ezcellular

deriving instance DecidableEq for Except

namespace Ezcellular

/-! ## Theorems about the state guards (claims C2 and C6) -/

/-- C2 (counterexample): `power_off()` is accepted — it issues the remote
`SetPowerState` call — in state `ENABLED`, which is not `DISABLED`.
This falsifies the claim that the power-state changes are accepted
*only* while the modem state equals `Disabled`: `assert_state` only
rejects states strictly below the required one. -/
theorem power_change_accepted_beyond_disabled :
    power_off ModemState.ENABLED = Except.ok (RemoteCall.setPowerState 1) ∧
    ModemState.ENABLED ≠ ModemState.DISABLED := by
  decide

/-- C2 (amended): each of `power_off()`, `power_low()`, `power_on()` is
accepted — issuing the remote `SetPowerState` call with the requested
power state's `uint32_t` value — exactly in the states at or above
`DISABLED`; in every state strictly below `DISABLED` it fails with a
precondition error carrying both the required state (`DISABLED`) and
the actual state, without attempting the remote call. -/
theorem power_state_guard_spec :
    ∀ st : ModemState,
      (ModemState.DISABLED.val ≤ st.val ∧
        power_off st = Except.ok (RemoteCall.setPowerState PowerState.OFF.val) ∧
        power_low st = Except.ok (RemoteCall.setPowerState PowerState.LOW.val) ∧
        power_on st = Except.ok (RemoteCall.setPowerState PowerState.ON.val)) ∨
      (st.val < ModemState.DISABLED.val ∧
        power_off st = Except.error ⟨ModemState.DISABLED, st⟩ ∧
        power_low st = Except.error ⟨ModemState.DISABLED, st⟩ ∧
        power_on st = Except.error ⟨ModemState.DISABLED, st⟩) := by
  decide

/-- C6: for every modem state `a`, `registered a` holds iff
`a >= REGISTERED`, `enabled a` iff `a >= ENABLED`, `connected a` iff
`a == CONNECTED` (comparisons of the underlying `int8_t` values), and
every state-guarded operation — the `REGISTERED` guards of
`signal` / `observe_signal` / `location` / `observe_location`, the
`ENABLED` guard of `network_time`, and the `DISABLED` guard of
`set_power_state` — rejects with a precondition error carrying the
required and the actual state exactly the states strictly below its
threshold and accepts all states at or above it. -/
theorem state_threshold_guards :
    ∀ a : ModemState,
      (registered a = true ↔ ModemState.REGISTERED.val ≤ a.val) ∧
      (enabled a = true ↔ ModemState.ENABLED.val ≤ a.val) ∧
      (connected a = true ↔ a = ModemState.CONNECTED) ∧
      (∀ req : ModemState,
        (assert_state a req = Except.ok () ↔ req.val ≤ a.val) ∧
        (assert_state a req = Except.error ⟨req, a⟩ ↔ a.val < req.val)) ∧
      (signal_state_check a = Except.ok () ↔ ModemState.REGISTERED.val ≤ a.val) ∧
      (observe_signal_state_check a = Except.ok () ↔ ModemState.REGISTERED.val ≤ a.val) ∧
      (location_state_check a = Except.ok () ↔ ModemState.REGISTERED.val ≤ a.val) ∧
      (observe_location_state_check a = Except.ok () ↔ ModemState.REGISTERED.val ≤ a.val) ∧
      (network_time_state_check a = Except.ok () ↔ ModemState.ENABLED.val ≤ a.val) ∧
      (set_power_state a PowerState.ON = Except.ok (RemoteCall.setPowerState 3) ↔
        ModemState.DISABLED.val ≤ a.val) := by
  decide

/-! ## Theorems about the attribute bag (claims C7 and C10) -/

/-- C7: for every attribute bag, key and requested type, `get` fails
with the missing-key error exactly when the key is absent, fails with
the type-mismatch error exactly when a value of a different stored
type is present, and returns the stored value exactly when one of the
requested type is present; `get_or_default` never fails — it returns
the stored value whenever the key is present with the requested type,
and it returns the fallback whenever the key is absent or the stored
type differs.  In particular, the Signal bag decoded from
`{rsrp: -95.0}` has `rsrp() == -95.0`, `rsrq()` failing with the
missing-key error, `get_or_default("rsrp", 0.0) == -95.0` (the stored
value, not the fallback), and `get_or_default("rsrq", 0.0) == 0.0`. -/
theorem any_map_get_contract :
    ∀ (m : AnyMap) (tag : AnyTag) (k : String) (d : AnyValue),
      (get m tag k = Except.error GetError.missingKey ↔ mapFind k m = none) ∧
      (∀ v : AnyValue, get m tag k = Except.ok v ↔
        (mapFind k m = some v ∧ tagOf v = tag)) ∧
      (get m tag k = Except.error GetError.typeMismatch ↔
        ∃ w, mapFind k m = some w ∧ ¬ tagOf w = tag) ∧
      (∀ w : AnyValue, mapFind k m = some w → tagOf w = tag →
        get_or_default m tag k d = w) ∧
      (mapFind k m = none → get_or_default m tag k d = d) ∧
      (∀ w : AnyValue, mapFind k m = some w → ¬ tagOf w = tag →
        get_or_default m tag k d = d) ∧
      (SignalLTE.from_variant_map [("rsrp", VarVal.vDbl (-95))] =
        Except.ok [("rsrp", AnyValue.vDouble (-95)),
                   ("tech", AnyValue.vTech Technology.LTE)]) ∧
      (SignalLTE.rsrp [("rsrp", AnyValue.vDouble (-95)),
                       ("tech", AnyValue.vTech Technology.LTE)] = Except.ok (-95)) ∧
      (SignalLTE.rsrq [("rsrp", AnyValue.vDouble (-95)),
                       ("tech", AnyValue.vTech Technology.LTE)] =
        Except.error GetError.missingKey) ∧
      (get_or_default [("rsrp", AnyValue.vDouble (-95)),
                       ("tech", AnyValue.vTech Technology.LTE)]
        AnyTag.tDouble "rsrp" (AnyValue.vDouble 0) = AnyValue.vDouble (-95)) ∧
      (get_or_default [("rsrp", AnyValue.vDouble (-95)),
                       ("tech", AnyValue.vTech Technology.LTE)]
        AnyTag.tDouble "rsrq" (AnyValue.vDouble 0) = AnyValue.vDouble 0) := by
  intro m tag k d
  refine ⟨?_, ?_, ?_, ?_, ?_, ?_, rfl, rfl, rfl, rfl, rfl⟩
  · rcases hf : mapFind k m with _ | v
    · simp [get, hf]
    · by_cases ht : tagOf v = tag <;> simp [get, hf, ht]
  · intro v
    rcases hf : mapFind k m with _ | w
    · simp only [get, hf]
      constructor
      · intro hok; exact Except.noConfusion hok
      · rintro ⟨hsome, -⟩; exact Option.noConfusion hsome
    · simp only [get, hf]
      by_cases ht : tagOf w = tag
      · rw [if_pos ht]
        constructor
        · intro hok
          injection hok with hwv
          subst hwv
          exact ⟨rfl, ht⟩
        · rintro ⟨hsome, -⟩
          injection hsome with hwv
          subst hwv
          rfl
      · rw [if_neg ht]
        constructor
        · intro hok; exact Except.noConfusion hok
        · rintro ⟨hsome, hvt⟩
          injection hsome with hwv
          subst hwv
          exact absurd hvt ht
  · rcases hf : mapFind k m with _ | w
    · simp [get, hf]
    · by_cases ht : tagOf w = tag <;> simp [get, hf, ht]
  · intro w hw ht
    simp [get_or_default, get, hw, ht]
  · intro hf
    simp [get_or_default, get, hf]
  · intro w hw ht
    simp [get_or_default, get, hw, ht]

/-- C7 (witness): the contract applied to the concrete Signal bag of
the claim — `get_or_default` returns the stored `rsrp` value when the
key is present with the requested type, and the fallback for the
absent `rsrq` key. -/
theorem any_map_get_contract_witness :
    get_or_default [("rsrp", AnyValue.vDouble (-95)),
                    ("tech", AnyValue.vTech Technology.LTE)]
      AnyTag.tDouble "rsrp" (AnyValue.vDouble 0) = AnyValue.vDouble (-95) ∧
    get_or_default [("rsrp", AnyValue.vDouble (-95)),
                    ("tech", AnyValue.vTech Technology.LTE)]
      AnyTag.tDouble "rsrq" (AnyValue.vDouble 0) = AnyValue.vDouble 0 :=
  ⟨(any_map_get_contract [("rsrp", AnyValue.vDouble (-95)),
      ("tech", AnyValue.vTech Technology.LTE)] AnyTag.tDouble "rsrp"
      (AnyValue.vDouble 0)).2.2.2.1 (AnyValue.vDouble (-95)) rfl rfl,
   (any_map_get_contract [("rsrp", AnyValue.vDouble (-95)),
      ("tech", AnyValue.vTech Technology.LTE)] AnyTag.tDouble "rsrq"
      (AnyValue.vDouble 0)).2.2.2.2.1 rfl⟩

/-- Unfolding the `push_back` loop of `AnyMap::keys()`. -/
theorem foldl_push_back (l : List (String × AnyValue)) (start : List String) :
    l.foldl (fun acc kv => acc ++ [kv.1]) start = start ++ l.map Prod.fst := by
  induction l generalizing start with
  | nil => simp
  | cons hd tl ih => simp [List.foldl_cons, ih]

/-- C10: for every attribute bag with `n` entries, `keys()` returns a
vector of length `2 * n`: `n` empty strings (the effect of
constructing the vector with `size()` default elements) followed by
the `n` stored keys in map order — not a vector of exactly the `n`
keys. -/
theorem keys_pads_with_empty_strings :
    ∀ m : AnyMap,
      keys m = List.replicate m.length "" ++ m.map Prod.fst ∧
      (keys m).length = 2 * m.length := by
  intro m
  have h : keys m = List.replicate m.length "" ++ m.map Prod.fst := by
    simp [keys, foldl_push_back]
  refine ⟨h, ?_⟩
  simp [h, two_mul]

/-! ## Theorems about the telemetry decoders (claims C3, C4 and C8) -/

/-- C3 (counterexample): a raw map whose `"ci"` field holds the
malformed hex string `"XYZ"` does not decode to a record with the
field absent — both the Location and the CellInfo decoder raise the
`std::invalid_argument` thrown by `std::stoul`. -/
theorem malformed_hex_decode_raises :
    LocationLTE.from_variant_map [("ci", VarVal.vStr "XYZ")] =
      Except.error (DErr.parse ParseErr.invalidArgument) ∧
    CellInfoLTE.from_variant_map [("ci", VarVal.vStr "XYZ")] =
      Except.error (DErr.parse ParseErr.invalidArgument) := ⟨rfl, rfl⟩

/-- C3 (amended): a hexadecimal-string field that is absent from the
raw map is simply absent from the decoded record, but a malformed
(unparseable) hex string makes the decode fail with the propagated
`std::stoul` exception — for the cell identity and tracking-area code
of the Location decoders and the cell identity and physical-cell-id of
the CellInfo decoders alike. -/
theorem malformed_hex_error_propagates (s : String) (e : ParseErr)
    (h : stoul16 s = Except.error e) :
    LocationLTE.from_variant_map [("ci", VarVal.vStr s)] =
      Except.error (DErr.parse e) ∧
    LocationLTE.from_variant_map [("tac", VarVal.vStr s)] =
      Except.error (DErr.parse e) ∧
    LocationNR5G.from_variant_map [("ci", VarVal.vStr s)] =
      Except.error (DErr.parse e) ∧
    CellInfoLTE.from_variant_map [("physical-ci", VarVal.vStr s)] =
      Except.error (DErr.parse e) ∧
    CellInfoNR5G.from_variant_map [("ci", VarVal.vStr s)] =
      Except.error (DErr.parse e) ∧
    LocationLTE.from_variant_map [] =
      Except.ok [("tech", AnyValue.vTech Technology.LTE)] := by
  refine ⟨?_, ?_, ?_, ?_, ?_, rfl⟩ <;>
    simp [LocationLTE.from_variant_map, LocationNR5G.from_variant_map,
      LocationLTE.fill_from_variant_map, LocationBase.fill_from_variant_map,
      CellInfoLTE.from_variant_map, CellInfoNR5G.from_variant_map,
      CellInfoBase.fill_from_variant_map, maybe_insert_bool, maybe_insert_u32,
      SignalLTE.from_variant_map, SignalNR5G.from_variant_map,
      maybe_insert_double, maybe_insert_as_double,
      vmFind, VarVal.asString, h, Except.mapError, LocationLTE.ctor,
      LocationNR5G.ctor, Bind.bind, Except.bind, Functor.map, Except.map,
      pure, Except.pure]

/-- C3 (witness for the amended claim): the amended statement applied
to the malformed hex string `"ZZ"`. -/
theorem malformed_hex_error_propagates_witness :
    LocationLTE.from_variant_map [("tac", VarVal.vStr "ZZ")] =
      Except.error (DErr.parse ParseErr.invalidArgument) :=
  (malformed_hex_error_propagates "ZZ" ParseErr.invalidArgument (by decide)).2.1

/-- C4 (code behavior at the failing input): with current technology
NR5G and a well-formed 3GPP location entry, `dbus_location_to_Location`
returns an absent (null) `Location` — the `else` branch commented
"not supported yet" is the one `rat == NR5G` reaches — while for GSM
(an unsupported technology that the claim says must fail) it builds a
`LocationNR5G`-typed record, because the inverted `else if
(rat != Technology::NR5G)` condition selects the NR5G constructor for
every technology other than LTE and NR5G. -/
theorem location_nr5g_dispatch_bug :
    dbus_location_to_Location Technology.NR5G
        [(1, VarVal.vStr "262,01,1A2B,0000A1B2,00112233")] = Except.ok none ∧
    dbus_location_to_Location Technology.GSM
        [(1, VarVal.vStr "262,01,1A2B,0000A1B2,00112233")] =
      Except.ok (some ⟨LocClass.nr5g,
        [("ci", AnyValue.vU32 0xA1B2), ("mcc", AnyValue.vString "262"),
         ("mnc", AnyValue.vString "01"), ("tac", AnyValue.vU32 0x112233),
         ("tech", AnyValue.vTech Technology.NR5G)]⟩) := ⟨rfl, rfl⟩

/-- C8: decoding the combined 3GPP location string
`"262,01,1A2B,0000A1B2,00112233"` (here on the LTE path) yields a
Location with `mcc = "262"`, `mnc = "01"`, `ci = 0xA1B2` and
`tac = 0x112233`, the third (LAC) field being scanned but ignored;
a location string with only three comma-separated fields yields an
absent (null) Location. -/
theorem location_string_decode :
    dbus_location_to_Location Technology.LTE
        [(1, VarVal.vStr "262,01,1A2B,0000A1B2,00112233")] =
      Except.ok (some ⟨LocClass.lte,
        [("ci", AnyValue.vU32 0xA1B2), ("mcc", AnyValue.vString "262"),
         ("mnc", AnyValue.vString "01"), ("tac", AnyValue.vU32 0x112233),
         ("tech", AnyValue.vTech Technology.LTE)]⟩) ∧
    dbus_location_to_Location Technology.LTE [(1, VarVal.vStr "262,01,1A2B")] =
      Except.ok none := ⟨rfl, rfl⟩

/-! ## Theorems about the device registry (claims C1, C5 and C9) -/

/-- C1 (code behavior at the failing input): removing the device at
path `.../Modem/1` from a registry holding the two devices
`.../Modem/0` and `.../Modem/1` leaves the live set at size 2 — the
`std::remove_if` result is discarded and no `erase` follows, so the
matching entry is not dropped from the container; the kept entry
occupies the front and the second slot holds an unspecified leftover
value. -/
theorem interfaces_removed_keeps_container_size (leftover : ModemRef) :
    onInterfacesRemoved "/org/freedesktop/ModemManager1/Modem/1" leftover
        [⟨"/org/freedesktop/ModemManager1/Modem/0", "860000000000001"⟩,
         ⟨"/org/freedesktop/ModemManager1/Modem/1", "860000000000002"⟩] =
      [⟨"/org/freedesktop/ModemManager1/Modem/0", "860000000000001"⟩, leftover] ∧
    (onInterfacesRemoved "/org/freedesktop/ModemManager1/Modem/1" leftover
        [⟨"/org/freedesktop/ModemManager1/Modem/0", "860000000000001"⟩,
         ⟨"/org/freedesktop/ModemManager1/Modem/1", "860000000000002"⟩]).length = 2 :=
  ⟨rfl, rfl⟩

/-- C5: the registry holds at most one pending await (a single
`std::optional` slot): `await_modem` while a previous await is
unresolved resolves the previous promise with the cancellation error
and installs the new target with a fresh promise; when a device is
subsequently added whose IMEI matches the awaited target, or the
target is the `ANY_IMEI` wildcard, the pending promise is fulfilled
with that device and the slot is cleared (and a non-matching device
leaves the pending await in place). -/
theorem await_modem_single_outstanding
    (st : OMProxyState) (target : String) (pid : PromiseId)
    (h : st.awaited_modem = some (target, pid)) (imei2 : String) (m : ModemRef) :
    ((await_modem st imei2).1.awaited_modem = some (imei2, st.nextPromise) ∧
      (await_modem st imei2).1.resolutions =
        (pid, PromiseResult.cancelledAwaitingOther) :: st.resolutions) ∧
    ((target = ANY_IMEI ∨ target = m.imei) →
      (onInterfacesAdded st m).awaited_modem = none ∧
      (onInterfacesAdded st m).resolutions =
        (pid, PromiseResult.resolved m) :: st.resolutions ∧
      (onInterfacesAdded st m).modems = st.modems ++ [m]) ∧
    ((¬ target = ANY_IMEI ∧ ¬ target = m.imei) →
      (onInterfacesAdded st m).awaited_modem = some (target, pid) ∧
      (onInterfacesAdded st m).resolutions = st.resolutions ∧
      (onInterfacesAdded st m).modems = st.modems ++ [m]) := by
  refine ⟨⟨?_, ?_⟩, ?_, ?_⟩
  · simp [await_modem]
  · simp [await_modem, h]
  · intro hor
    have hcond : (target == ANY_IMEI || target == m.imei) = true := by
      rcases hor with h1 | h1 <;> simp [h1]
    simp [onInterfacesAdded, h, hcond]
  · rintro ⟨h1, h2⟩
    have hcond : (target == ANY_IMEI || target == m.imei) = false := by
      simp [h1, h2]
    simp [onInterfacesAdded, h, hcond]

/-- C5 (witness): a pending wildcard await is cancelled by a second
`await_modem` call, and an added device fulfills a pending wildcard
await and clears the slot. -/
theorem await_modem_single_outstanding_witness :
    (await_modem ⟨[], some (ANY_IMEI, 0), 1, []⟩ "860000000000003").1.resolutions =
      [(0, PromiseResult.cancelledAwaitingOther)] ∧
    (onInterfacesAdded ⟨[], some (ANY_IMEI, 0), 1, []⟩
        ⟨"/org/freedesktop/ModemManager1/Modem/0", "860000000000003"⟩).awaited_modem =
      none :=
  ⟨(await_modem_single_outstanding ⟨[], some (ANY_IMEI, 0), 1, []⟩ ANY_IMEI 0 rfl
      "860000000000003" ⟨"/org/freedesktop/ModemManager1/Modem/0", "860000000000003"⟩).1.2,
   ((await_modem_single_outstanding ⟨[], some (ANY_IMEI, 0), 1, []⟩ ANY_IMEI 0 rfl
      "860000000000003" ⟨"/org/freedesktop/ModemManager1/Modem/0", "860000000000003"⟩).2.1
      (Or.inl rfl)).1⟩

/-- C9: `ModemManager::modems_available()` returns the result of
`empty()` on the modem list directly, so it returns `true` exactly
when the registry's live modem set is empty — i.e. exactly when no
modems are available. -/
theorem modems_available_iff_no_modems :
    ∀ st : OMProxyState, modems_available st = true ↔ st.modems = [] := by
  intro st
  cases h : st.modems <;> simp [modems_available, h]

end Ezcellular
